import Mathlib

/-!
# Verification of `data-prep/ALOS-2/alos2_proc.py`

A shallow embedding of the ALOS/ALOS-2 mosaic-preparation script.  The script
is a thin orchestration layer: it validates the source and destination
locations, lists `.tar.gz` tile archives under `<src>/<year>/tarfiles`,
filters their names against a regular expression, and for each of the four
layers (HH, HV, INC, DOY) assembles a `gdalbuildvrt` command over in-archive
member paths, followed by a `gdal_translate` command string.

The embedding models the outside world (directory existence, subprocess
successes, the listing output) as an explicit environment `Env`, and every
subprocess invocation as an element of an executed-commands trace.  All
definitions are translated from the Python source; each carries the source
location it embeds.
-/

namespace Alos2Proc

/-- A raised Python exception, as far as this script distinguishes them:
`Exception(msg)` raised by the script itself, or a
`subprocess.CalledProcessError` propagated from a checked external command. -/
inductive PyErr where
  | exception (msg : String)
  | calledProcessError
deriving DecidableEq, Repr

/-- One subprocess invocation.  Each constructor records the exact shell
command line passed to `subprocess`; the constructor itself records which
call site issued it (`main`'s `gsutil ls` existence probe, `build_vrt`'s
archive listing, `gdalbuildvrt`, or a `gdal_translate` conversion). -/
inductive Cmd where
  | probe (line : String)
  | ls (line : String)
  | buildvrt (line : String)
  | translate (line : String)
deriving DecidableEq, Repr

/-- The `src` value handed to `build_vrt`: either a `pathlib.Path`
(`main`'s local branch) or a URL string (`main`'s object-store branch).
The source dispatches on `isinstance(src, Path)` / `isinstance(src, str)`. -/
inductive Loc where
  | pathLoc (p : String)
  | strLoc (s : String)
deriving DecidableEq, Repr

/-- The outside world: which local directories exist (`Path.is_dir`),
which checked subprocess command lines exit with status 0, and the stdout
lines of the archive-listing command (`none` models a non-zero exit of
`subprocess.check_output`, which raises `CalledProcessError`). -/
structure Env where
  dirs : List String
  callOk : String → Bool
  listOutput : Option (List String)

/-- Trace of the subprocess commands actually executed, in order, together
with the exception that terminated the run, if any. -/
structure RunResult where
  cmds : List Cmd
  err : Option PyErr
deriving DecidableEq, Repr

/-! ## String helpers mirroring the Python library calls -/

/-- `pathlib.Path(p).name`: the final path component, ignoring trailing
slashes (`Path('a/b/').name == 'b'`, `Path('/').name == ''`). -/
def pathName (p : String) : String :=
  String.mk (((p.toList.reverse.dropWhile (fun c => c = '/')).takeWhile
    (fun c => c ≠ '/')).reverse)

/-- `s.strip('/')`: drop `'/'` characters from both ends of the string. -/
def stripSlashes (s : String) : String :=
  String.mk (((s.toList.dropWhile (fun c => c = '/')).reverse.dropWhile
    (fun c => c = '/')).reverse)

/-- `str(Path(a) / b)` for the argument shapes this script produces: drop
`a`'s trailing slashes and insert a single separator.  `pathlib`'s further
normalisation (doubled slashes inside `a` or `b`, `.` components) is not
modelled; the theorems that depend on the joined shape state it as a
hypothesis. -/
def pathJoin (a b : String) : String :=
  if a = "" then b
  else
    let a2 := String.mk ((a.toList.reverse.dropWhile (fun c => c = '/')).reverse)
    if a2 = "" then "/" ++ b else a2 ++ "/" ++ b

/-- The result triple of `urllib.parse.urlparse` that the script reads:
`scheme`, `netloc` and `path`. -/
structure UrlParts where
  scheme : String
  netloc : String
  path : String
deriving DecidableEq, Repr

/-- Split a character list at the first `':'`, returning the parts before
and after it, or `none` when there is no colon. -/
def breakAtColon : List Char → Option (List Char × List Char)
  | [] => none
  | c :: cs =>
    if c = ':' then some ([], cs)
    else
      match breakAtColon cs with
      | none => none
      | some (a, b) => some (c :: a, b)

/-- A valid URL scheme: a letter followed by letters, digits, `'+'`, `'-'`
or `'.'` (the `scheme_chars` check of `urllib.parse`). -/
def validScheme : List Char → Bool
  | [] => false
  | c :: cs => c.isAlpha && cs.all (fun d => d.isAlphanum || d = '+' || d = '-' || d = '.')

/-- `urllib.parse.urlparse`, restricted to the scheme/netloc/path split
(none of the inputs this script handles carry query, fragment or params
segments, so those are not modelled).  The scheme is lowercased; the part
before the first `':'` counts as a scheme only when it is a valid scheme
token, and a netloc is recognised only after `"//"`. -/
def urlparse (s : String) : UrlParts :=
  match breakAtColon s.toList with
  | some (before, after) =>
    if validScheme before then
      match after with
      | '/' :: '/' :: rest =>
        ⟨String.mk (before.map Char.toLower),
         String.mk (rest.takeWhile (fun c => c ≠ '/')),
         String.mk (rest.dropWhile (fun c => c ≠ '/'))⟩
      | _ => ⟨String.mk (before.map Char.toLower), "", String.mk after⟩
    else ⟨"", "", s⟩
  | none => ⟨"", "", s⟩

/-! ## `build_vrt` (alos2_proc.py lines 23-73) -/

/-- A `\w` character of the source's regular expression, over ASCII:
a letter, a digit or an underscore. -/
def isWordChar (c : Char) : Bool := c.isAlphanum || c == '_'

/-- The compiled archive-name pattern
`r'^[N|S]{1}\w{2}[E|W]{1}\w{3}_\w{2}_MOS'` (line 34), applied with
`re.match`, i.e. anchored at the start only.  Note the character classes
`[N|S]` and `[E|W]` literally contain the bar character, and `\w` accepts
any word character, not only digits. -/
def tarfilePatternMatch (s : String) : Bool :=
  match s.toList with
  | c0 :: c1 :: c2 :: c3 :: c4 :: c5 :: c6 :: c7 :: c8 :: c9 :: c10 :: c11 :: c12 :: c13 :: _ =>
    (c0 == 'N' || c0 == '|' || c0 == 'S') && isWordChar c1 && isWordChar c2 &&
    (c3 == 'E' || c3 == '|' || c3 == 'W') && isWordChar c4 && isWordChar c5 &&
    isWordChar c6 && c7 == '_' && isWordChar c8 && isWordChar c9 &&
    c10 == '_' && c11 == 'M' && c12 == 'O' && c13 == 'S'
  | _ => false

/-- The archive-name pattern as the specification words it: a leading `N`
or `S`, two digits, `E` or `W`, three digits, an underscore, two digits,
an underscore, then `MOS`. -/
def specPatternMatch (s : String) : Bool :=
  match s.toList with
  | c0 :: c1 :: c2 :: c3 :: c4 :: c5 :: c6 :: c7 :: c8 :: c9 :: c10 :: c11 :: c12 :: c13 :: _ =>
    (c0 == 'N' || c0 == 'S') && c1.isDigit && c2.isDigit &&
    (c3 == 'E' || c3 == 'W') && c4.isDigit && c5.isDigit && c6.isDigit &&
    c7 == '_' && c8.isDigit && c9.isDigit &&
    c10 == '_' && c11 == 'M' && c12 == 'O' && c13 == 'S'
  | _ => false

/-- `list.remove(x)`: drop the first occurrence of `x`. -/
def pyRemove : List String → String → List String
  | [], _ => []
  | y :: ys, x => if y = x then ys else y :: pyRemove ys x

/-- The filtering loop of lines 41-43:
`for tarfile in tarfile_list: if not match: tarfile_list.remove(tarfile)`.
CPython's list iterator keeps a position index, so removing the current
element shifts the remaining entries left and the element following each
removed one is skipped.  Modelled with the iterator index and a fuel equal
to the starting length: the index grows by one per step and the list never
grows, so that fuel always suffices. -/
def filterStep : Nat → List String → Nat → List String
  | 0, lst, _ => lst
  | fuel + 1, lst, i =>
    if h : i < lst.length then
      let x := lst.get ⟨i, h⟩
      if tarfilePatternMatch x then filterStep fuel lst (i + 1)
      else filterStep fuel (pyRemove lst x) (i + 1)
    else lst

/-- The whole in-place filtering pass over the listed archive names. -/
def filterTarfiles (lst : List String) : List String := filterStep lst.length lst 0

/-- The `layer_suffix` dictionary (lines 15-20).  It has exactly the four
keys `HH`, `HV`, `INC`, `DOY`, and the script only ever looks those up. -/
def layer_suffix (layer : String) : String :=
  if layer = "HH" then "sl_HH"
  else if layer = "HV" then "sl_HV"
  else if layer = "INC" then "linci"
  else "date"

/-- The loop order of line 52: `['HH', 'HV', 'INC', 'DOY']`. -/
def layers : List String := ["HH", "HV", "INC", "DOY"]

/-- `str(year)[2:]` (line 24). -/
def yyFor (year : Int) : String := String.mk ((toString year).toList.drop 2)

/-- The acquisition-era postfix (lines 25-32): empty for ALOS (`year <
2014`), `'F02DAR'` for ALOS-2. -/
def postfixFor (year : Int) : String := if year < 2014 then "" else "F02DAR"

/-- The member file extension (lines 47-50): none before 2019, `'.tif'`
from 2019 on. -/
def suffixFor (year : Int) : String := if year < 2019 then "" else ".tif"

/-- `tarfile.split('_')[0]` (line 56): the name up to the first underscore. -/
def tileOf (tarfile : String) : String :=
  String.mk (tarfile.toList.takeWhile (fun c => c ≠ '_'))

/-- The in-archive member file name
`f'{tile}_{yy}_{layer_suffix[layer]}_{postfix}{suffix}'` (lines 58/63). -/
def memberName (year : Int) (tarfile layer : String) : String :=
  tileOf tarfile ++ "_" ++ yyFor year ++ "_" ++ layer_suffix layer ++ "_" ++
    postfixFor year ++ suffixFor year

/-- The full member path of lines 57-63: `/vsitar/<src>/<tarfile>/<name>`
for a local `Path` source, and `/vsitar/vsis3/<bucket>/<prefix>/<tarfile>/
<name>` for a string (URL) source, whose bucket and prefix are re-derived
with `urlparse` and `strip('/')`. -/
def memberPath (src : Loc) (year : Int) (tarfile layer : String) : String :=
  match src with
  | .pathLoc p =>
    "/vsitar/" ++ p ++ "/" ++ tarfile ++ "/" ++ memberName year tarfile layer
  | .strLoc s =>
    "/vsitar/vsis3/" ++ (urlparse s).netloc ++ "/" ++ stripSlashes (urlparse s).path ++
      "/" ++ tarfile ++ "/" ++ memberName year tarfile layer

/-- The archive-listing command line of lines 37-39: `ls <src>/*.tar.gz`,
prefixed by `gsutil ` exactly when `src` is a string. -/
def lsLine (src : Loc) : String :=
  match src with
  | .pathLoc p => "ls " ++ p ++ "/*.tar.gz"
  | .strLoc s => "gsutil " ++ ("ls " ++ s ++ "/*.tar.gz")

/-- The text that `f'{src}'` interpolates for either kind of source. -/
def locText : Loc → String
  | .pathLoc p => p
  | .strLoc s => s

/-- The `gdalbuildvrt` command of line 65 for one layer. -/
def buildvrtLine (src : Loc) (year : Int) (tarfiles : List String) (layer : String) : String :=
  "gdalbuildvrt -overwrite " ++ layer ++ "_0.vrt " ++
    String.intercalate " " (tarfiles.map (fun t => memberPath src year t layer))

/-- The `gdal_translate` command string of lines 70-73.  The source builds
this string but never passes it to `subprocess`; it is the value left in
`cmd` when the loop body ends. -/
def translateLine (layer : String) : String :=
  if layer = "HH" ∨ layer = "HV" ∨ layer = "INC" then
    "gdal_translate -ot Float32 " ++ layer ++ "_0.vrt " ++ layer ++ "_1.vrt"
  else
    "gdal_translate -ot Int16 " ++ layer ++ "_0.vrt " ++ layer ++ "_1.vrt"

/-- Extract the command line of a `Cmd`. -/
def Cmd.line : Cmd → String
  | .probe s => s
  | .ls s => s
  | .buildvrt s => s
  | .translate s => s

/-- Run a list of checked commands (`subprocess.check_call`) in order:
each executed command enters the trace, and the first failing one raises
`CalledProcessError`, cutting the run short. -/
def runChecked (env : Env) : List Cmd → List Cmd × Option PyErr
  | [] => ([], none)
  | c :: cs =>
    if env.callOk c.line then
      let r := runChecked env cs
      (c :: r.1, r.2)
    else ([c], some PyErr.calledProcessError)

/-- `build_vrt(year, src)` (lines 23-73).  The listing command is always
executed first; a failed listing raises `CalledProcessError`.  The listed
paths are reduced to their file names, filtered in place, and if nothing
is left the script raises
`Exception(f'No .tar.gz files found under {src}/{year}/tarfiles/.')`.
Otherwise one `gdalbuildvrt` command per layer is executed with
`check_call`; the `gdal_translate` string assigned afterwards (lines
69-73) is never executed, so it does not enter the trace. -/
def build_vrt (year : Int) (src : Loc) (env : Env) : RunResult :=
  match env.listOutput with
  | none => ⟨[Cmd.ls (lsLine src)], some PyErr.calledProcessError⟩
  | some lines =>
    let tlist := filterTarfiles (lines.map pathName)
    if tlist.isEmpty then
      ⟨[Cmd.ls (lsLine src)],
       some (PyErr.exception ("No .tar.gz files found under " ++ locText src ++ "/" ++
         toString year ++ "/tarfiles/."))⟩
    else
      let r := runChecked env
        (layers.map (fun layer => Cmd.buildvrt (buildvrtLine src year tlist layer)))
      ⟨Cmd.ls (lsLine src) :: r.1, r.2⟩

/-! ## `main` (alos2_proc.py lines 129-181) -/

/-- The four positional command-line arguments (lines 133-147); `year` is
parsed with `type=int`. -/
structure Args where
  tiles : String
  year : Int
  src : String
  dst : String

/-- The location-validation block `main` performs twice (lines 150-163 for
`src` with `tl = f'{args.year}/tarfiles'`, lines 166-179 for `dst` with
`tl = f'{args.year}'`): an object-store location (scheme `s3` or `gs`) is
rebuilt as `f'{scheme}://{bucket}/{prefix}/' + tl` and probed with a
checked `gsutil ls`; any other location is treated as a local path, joined
with `tl`, and must be an existing directory, else
`Exception(f'{loc} is not a valid directory path')` is raised. -/
def checkLoc (loc : String) (tl : String) (env : Env) : List Cmd × Except PyErr Loc :=
  let u := urlparse loc
  if u.scheme = "s3" ∨ u.scheme = "gs" then
    let full := u.scheme ++ "://" ++ u.netloc ++ "/" ++ stripSlashes u.path ++ "/" ++ tl
    let probeLine := "gsutil ls " ++ full
    if env.callOk probeLine then ([Cmd.probe probeLine], Except.ok (Loc.strLoc full))
    else ([Cmd.probe probeLine], Except.error PyErr.calledProcessError)
  else
    let p := pathJoin loc tl
    if env.dirs.contains p then ([], Except.ok (Loc.pathLoc p))
    else ([], Except.error (PyErr.exception (loc ++ " is not a valid directory path")))

/-- `main()` (lines 129-181): validate `src`, then `dst`, then call
`build_vrt(args.year, src)`.  The validated `dst` value is computed but
never used afterwards, exactly as in the source; `warp_to_tiles` is never
invoked.  The `tiles` argument is parsed but read nowhere. -/
def main (args : Args) (env : Env) : RunResult :=
  match checkLoc args.src (toString args.year ++ "/tarfiles") env with
  | (cs, Except.error e) => ⟨cs, some e⟩
  | (cs, Except.ok src) =>
    match checkLoc args.dst (toString args.year) env with
    | (cs2, Except.error e) => ⟨cs ++ cs2, some e⟩
    | (cs2, Except.ok _) =>
      let r := build_vrt args.year src env
      ⟨cs ++ cs2 ++ r.cmds, r.err⟩

/-! ## Classifiers over traced commands -/

/-- Whether a traced command is one of `main`'s `gsutil ls` existence probes. -/
def Cmd.isProbe : Cmd → Bool
  | .probe _ => true
  | _ => false

/-- Whether a traced command is a `gdalbuildvrt` mosaic-building call. -/
def Cmd.isBuildvrt : Cmd → Bool
  | .buildvrt _ => true
  | _ => false

/-- Whether a traced command is a `gdal_translate` type conversion. -/
def Cmd.isTranslate : Cmd → Bool
  | .translate _ => true
  | _ => false

/-- The member-name template as the specification words it: the tile
identifier, the two-digit year, the layer suffix and an optional
acquisition-era postfix, separated by underscores, followed by an optional
extension. -/
def specMemberName (tile yy lsuf : String) (post : Option String) (ext : String) : String :=
  tile ++ "_" ++ yy ++ "_" ++ lsuf ++ "_" ++ post.getD "" ++ ext

/-! ## General helper lemmas -/

theorem str_toList_append (s t : String) : (s ++ t).toList = s.toList ++ t.toList := by
  cases s; cases t; rfl

theorem str_append_empty (s : String) : s ++ "" = s := by
  cases s; simp [String.append]

/-- A location argument that takes `main`'s local branch (its parsed
scheme is neither `s3` nor `gs`) and whose derived directory does not
exist in the environment. -/
def localMissing (loc tl : String) (env : Env) : Prop :=
  (urlparse loc).scheme ≠ "s3" ∧ (urlparse loc).scheme ≠ "gs" ∧
    env.dirs.contains (pathJoin loc tl) = false

theorem checkLoc_cmds_probe_only (loc tl : String) (env : Env) :
    ((checkLoc loc tl env).1.all Cmd.isProbe) = true := by
  simp only [checkLoc]
  split
  · split <;> simp [Cmd.isProbe]
  · split <;> simp

theorem checkLoc_local_missing (loc tl : String) (env : Env)
    (h : localMissing loc tl env) :
    checkLoc loc tl env =
      ([], Except.error (PyErr.exception (loc ++ " is not a valid directory path"))) := by
  obtain ⟨h1, h2, h3⟩ := h
  simp only [checkLoc]
  rw [if_neg (by simp [h1, h2])]
  rw [if_neg (by simpa using h3)]

theorem build_vrt_cmds_head (year : Int) (src : Loc) (env : Env) :
    ∃ rest, (build_vrt year src env).cmds = Cmd.ls (lsLine src) :: rest := by
  simp only [build_vrt]
  cases env.listOutput with
  | none => exact ⟨[], rfl⟩
  | some lines =>
    simp only []
    split
    · exact ⟨[], rfl⟩
    · exact ⟨_, rfl⟩

/-! ## Claims -/

/-- Claim C1: the archive filtering step accepts exactly the listed names
matching `<N|S><2-digit><E|W><3-digit>_<2-digit>_MOS...` and rejects all
others — refuted on the code.  With the listing `AAA.tar.gz, BBB.tar.gz`
(no name matches), the remove-during-iteration loop skips `BBB.tar.gz`
after removing `AAA.tar.gz`, so a non-matching name survives filtering.
Moreover the compiled pattern itself accepts `|ab|xyz_ab_MOS.tar.gz`,
which is outside the claimed shape (no hemisphere letters, no digits), so
that listed name also survives. -/
theorem alos2_C1_filter_keeps_nonmatching :
    filterTarfiles ["AAA.tar.gz", "BBB.tar.gz"] = ["BBB.tar.gz"]
    ∧ tarfilePatternMatch "BBB.tar.gz" = false
    ∧ specPatternMatch "BBB.tar.gz" = false
    ∧ tarfilePatternMatch "|ab|xyz_ab_MOS.tar.gz" = true
    ∧ specPatternMatch "|ab|xyz_ab_MOS.tar.gz" = false
    ∧ filterTarfiles ["|ab|xyz_ab_MOS.tar.gz"] = ["|ab|xyz_ab_MOS.tar.gz"] := by
  decide

/-- Claim C2: after building each layer's virtual mosaic, `build_vrt` is
claimed to execute a type conversion to Float32 (HH, HV, INC) or Int16
(DOY) — refuted on the code.  In a complete successful run (year 2020,
local source, one matching archive, every checked call succeeding) the
executed-command trace contains no `gdal_translate` invocation at all: the
conversion command string is assigned on lines 70-73 but never passed to
`subprocess`.  The constructed strings do carry the claimed target types. -/
theorem alos2_C2_translate_never_executed :
    ((build_vrt 2020 (Loc.pathLoc "/data/2020/tarfiles")
        ⟨[], fun _ => true, some ["N09E109_15_MOS_F02DAR.tar.gz"]⟩).cmds.all
      (fun c => !c.isTranslate)) = true
    ∧ (build_vrt 2020 (Loc.pathLoc "/data/2020/tarfiles")
        ⟨[], fun _ => true, some ["N09E109_15_MOS_F02DAR.tar.gz"]⟩).err = none
    ∧ translateLine "HH" = "gdal_translate -ot Float32 HH_0.vrt HH_1.vrt"
    ∧ translateLine "HV" = "gdal_translate -ot Float32 HV_0.vrt HV_1.vrt"
    ∧ translateLine "INC" = "gdal_translate -ot Float32 INC_0.vrt INC_1.vrt"
    ∧ translateLine "DOY" = "gdal_translate -ot Int16 DOY_0.vrt DOY_1.vrt" := by
  decide

/-- Claim C3: with zero matching archive names, `build_vrt` is claimed to
raise before any mosaic construction — refuted on the code.  With the
listing `/d/AAA.tar.gz, /d/BBB.tar.gz` neither file name matches the
pattern (under the compiled regex or under the spec's reading of it), yet
because the remove-during-iteration loop leaves `BBB.tar.gz` in the list,
no exception is raised and `gdalbuildvrt` mosaic commands are executed. -/
theorem alos2_C3_builds_mosaics_without_matches :
    (["AAA.tar.gz", "BBB.tar.gz"].all
      (fun t => !(tarfilePatternMatch t) && !(specPatternMatch t))) = true
    ∧ (build_vrt 2020 (Loc.pathLoc "/d")
        ⟨[], fun _ => true, some ["/d/AAA.tar.gz", "/d/BBB.tar.gz"]⟩).err = none
    ∧ ((build_vrt 2020 (Loc.pathLoc "/d")
        ⟨[], fun _ => true, some ["/d/AAA.tar.gz", "/d/BBB.tar.gz"]⟩).cmds.any
      Cmd.isBuildvrt) = true := by
  decide

/-- Claim C5: the member name built by `build_vrt` carries no
acquisition-era postfix before 2014 and the fixed postfix `F02DAR` from
2014 on; from 2014 on the postfix also occurs inside the full member path. -/
theorem alos2_C5_postfix_by_era (year : Int) (src : Loc) (t l : String) :
    memberName year t l =
      specMemberName (tileOf t) (yyFor year) (layer_suffix l)
        (if year < 2014 then none else some "F02DAR") (suffixFor year)
    ∧ (2014 ≤ year → "F02DAR".toList <:+: (memberPath src year t l).toList) := by
  constructor
  · by_cases h : year < 2014 <;> simp [memberName, specMemberName, postfixFor, h]
  · intro h
    have hp : postfixFor year = "F02DAR" := by
      rw [postfixFor, if_neg (by omega)]
    cases src with
    | pathLoc p =>
      refine ⟨("/vsitar/" ++ p ++ "/" ++ t ++ "/" ++
        (tileOf t ++ "_" ++ yyFor year ++ "_" ++ layer_suffix l ++ "_")).toList,
        (suffixFor year).toList, ?_⟩
      simp [memberPath, memberName, hp, str_toList_append, List.append_assoc]
    | strLoc s =>
      refine ⟨("/vsitar/vsis3/" ++ (urlparse s).netloc ++ "/" ++
        stripSlashes (urlparse s).path ++ "/" ++ t ++ "/" ++
        (tileOf t ++ "_" ++ yyFor year ++ "_" ++ layer_suffix l ++ "_")).toList,
        (suffixFor year).toList, ?_⟩
      simp [memberPath, memberName, hp, str_toList_append, List.append_assoc]

/-- Witness for C5 at year 2020 (the 2014-onward hypothesis holds there). -/
theorem alos2_C5_postfix_by_era_witness :
    (2014 : Int) ≤ 2020
    ∧ "F02DAR".toList <:+:
        (memberPath (Loc.pathLoc "/d") 2020 "N09E109_20_MOS_F02DAR.tar.gz" "HH").toList :=
  ⟨by decide,
   (alos2_C5_postfix_by_era 2020 (Loc.pathLoc "/d") "N09E109_20_MOS_F02DAR.tar.gz" "HH").2
     (by decide)⟩

/-- Claim C8: the first positional argument (the tiles path) has no effect
on the program's behaviour: two runs differing only in `tiles` execute the
same commands and produce the same result (`warp_to_tiles` is never
invoked by `main`). -/
theorem alos2_C8_tiles_argument_unused (t1 t2 : String) (year : Int) (src dst : String)
    (env : Env) :
    main ⟨t1, year, src, dst⟩ env = main ⟨t2, year, src, dst⟩ env := rfl

/-- Claim C9: for a string (object-store) source — the form `main` hands
over for both `s3://` and `gs://` URLs — every member path built by
`build_vrt` begins with the S3 virtual-filesystem prefix
`/vsitar/vsis3/`; in particular its first fourteen characters are exactly
that prefix, so no GCS-specific `/vsitar/vsigs/` prefix is ever produced. -/
theorem alos2_C9_always_vsis3 (s : String) (year : Int) (t l : String) :
    "/vsitar/vsis3/".toList <+: (memberPath (Loc.strLoc s) year t l).toList
    ∧ (memberPath (Loc.strLoc s) year t l).toList.take 14 = "/vsitar/vsis3/".toList
    ∧ ¬ "/vsitar/vsigs/".toList <+: (memberPath (Loc.strLoc s) year t l).toList := by
  have hx : (memberPath (Loc.strLoc s) year t l).toList =
      "/vsitar/vsis3/".toList ++ ((urlparse s).netloc ++ "/" ++
        stripSlashes (urlparse s).path ++ "/" ++ t ++ "/" ++
        memberName year t l).toList := by
    simp [memberPath, str_toList_append, List.append_assoc]
  have htake : (memberPath (Loc.strLoc s) year t l).toList.take 14 =
      "/vsitar/vsis3/".toList := by
    rw [hx]
    have h14 : ("/vsitar/vsis3/".toList).length = 14 := by decide
    rw [← h14, List.take_left]
  refine ⟨?_, htake, ?_⟩
  · rw [hx]; exact List.prefix_append _ _
  · intro hpre
    have heq := List.prefix_iff_eq_take.mp hpre
    have h14 : ("/vsitar/vsigs/".toList).length = 14 := by decide
    rw [h14, htake] at heq
    exact absurd heq (by decide)

/-- Claim C10: before 2014 (empty postfix) the member name still ends with
the underscore separator that follows the layer suffix: it is exactly
`<tile>_<yy>_<layer-suffix>_` followed only by the extension, which is
itself empty for those years, so the name ends in an underscore. -/
theorem alos2_C10_trailing_underscore (year : Int) (t l : String) (h : year < 2014) :
    memberName year t l =
      (tileOf t ++ "_" ++ yyFor year ++ "_" ++ layer_suffix l ++ "_") ++ suffixFor year
    ∧ suffixFor year = ""
    ∧ ['_'] <:+ (memberName year t l).toList := by
  have hp : postfixFor year = "" := by rw [postfixFor, if_pos h]
  have hs : suffixFor year = "" := by rw [suffixFor, if_pos (by omega)]
  refine ⟨?_, hs, ?_⟩
  · simp [memberName, hp, hs, str_append_empty]
  · refine ⟨(tileOf t ++ "_" ++ yyFor year ++ "_" ++ layer_suffix l).toList, ?_⟩
    have h1 : ("_" : String).toList = ['_'] := rfl
    simp [memberName, hp, hs, str_append_empty, str_toList_append, List.append_assoc, h1]

/-- Claim C4: when the source or the destination argument is a local path
whose derived directory (`<src>/<year>/tarfiles` resp. `<dst>/<year>`)
does not exist, `main` raises a failure before invoking the mosaic
builder: the run ends with an error and the only commands ever executed
are `main`'s own `gsutil ls` location probes — none of `build_vrt`'s
listing or `gdalbuildvrt` commands is issued. -/
theorem alos2_C4_local_missing_fails_before_builder (args : Args) (env : Env)
    (h : localMissing args.src (toString args.year ++ "/tarfiles") env ∨
         localMissing args.dst (toString args.year) env) :
    (main args env).err ≠ none
    ∧ ((main args env).cmds.all Cmd.isProbe) = true := by
  cases h with
  | inl hsrc =>
    have hc := checkLoc_local_missing args.src (toString args.year ++ "/tarfiles") env hsrc
    unfold main
    rw [hc]
    exact ⟨by simp, by simp⟩
  | inr hdst =>
    have hc := checkLoc_local_missing args.dst (toString args.year) env hdst
    have hall := checkLoc_cmds_probe_only args.src (toString args.year ++ "/tarfiles") env
    rcases hsrc : checkLoc args.src (toString args.year ++ "/tarfiles") env with ⟨cs, r⟩
    rw [hsrc] at hall
    unfold main
    rw [hsrc]
    cases r with
    | error e => exact ⟨by simp, by simpa using hall⟩
    | ok src =>
      rw [hc]
      refine ⟨by simp, ?_⟩
      simpa using hall

/-- Witness for C4: with no existing directories at all, the run
`main tiles=t year=2020 src=/data dst=/out` fails with no command executed. -/
theorem alos2_C4_local_missing_fails_before_builder_witness :
    (main ⟨"t", 2020, "/data", "/out"⟩ ⟨[], fun _ => false, none⟩).err ≠ none
    ∧ ((main ⟨"t", 2020, "/data", "/out"⟩ ⟨[], fun _ => false, none⟩).cmds.all
        Cmd.isProbe) = true :=
  alos2_C4_local_missing_fails_before_builder ⟨"t", 2020, "/data", "/out"⟩
    ⟨[], fun _ => false, none⟩ (Or.inl ⟨by decide, by decide, by decide⟩)

/-- Claim C6: member paths built by `build_vrt` carry no file extension
before 2019 — the member name is exactly the extensionless template — and
from 2019 on every member path ends in the fixed extension `.tif`. -/
theorem alos2_C6_extension_by_era (year : Int) (src : Loc) (t l : String) :
    (year < 2019 → memberName year t l =
      tileOf t ++ "_" ++ yyFor year ++ "_" ++ layer_suffix l ++ "_" ++ postfixFor year)
    ∧ (2019 ≤ year → ".tif".toList <:+ (memberPath src year t l).toList) := by
  constructor
  · intro h
    have hs : suffixFor year = "" := by rw [suffixFor, if_pos h]
    simp [memberName, hs, str_append_empty]
  · intro h
    have hs : suffixFor year = ".tif" := by rw [suffixFor, if_neg (by omega)]
    cases src with
    | pathLoc p =>
      refine ⟨("/vsitar/" ++ p ++ "/" ++ t ++ "/" ++
        (tileOf t ++ "_" ++ yyFor year ++ "_" ++ layer_suffix l ++ "_" ++
          postfixFor year)).toList, ?_⟩
      simp [memberPath, memberName, hs, str_toList_append, List.append_assoc]
    | strLoc s =>
      refine ⟨("/vsitar/vsis3/" ++ (urlparse s).netloc ++ "/" ++
        stripSlashes (urlparse s).path ++ "/" ++ t ++ "/" ++
        (tileOf t ++ "_" ++ yyFor year ++ "_" ++ layer_suffix l ++ "_" ++
          postfixFor year)).toList, ?_⟩
      simp [memberPath, memberName, hs, str_toList_append, List.append_assoc]

/-- Witness for C6 at years 2010 (no extension) and 2020 (`.tif`). -/
theorem alos2_C6_extension_by_era_witness :
    ((2010 : Int) < 2019
      ∧ memberName 2010 "N09E109_10_MOS.tar.gz" "HV" =
          tileOf "N09E109_10_MOS.tar.gz" ++ "_" ++ yyFor 2010 ++ "_" ++
            layer_suffix "HV" ++ "_" ++ postfixFor 2010)
    ∧ ((2019 : Int) ≤ 2020
      ∧ ".tif".toList <:+
          (memberPath (Loc.pathLoc "/d") 2020 "N09E109_20_MOS_F02DAR.tar.gz" "HV").toList) :=
  ⟨⟨by decide,
    (alos2_C6_extension_by_era 2010 (Loc.pathLoc "/d") "N09E109_10_MOS.tar.gz" "HV").1
      (by decide)⟩,
   ⟨by decide,
    (alos2_C6_extension_by_era 2020 (Loc.pathLoc "/d") "N09E109_20_MOS_F02DAR.tar.gz" "HV").2
      (by decide)⟩⟩

/-- Claim C7: in every run that reaches the builder, the archive-listing
command lists `*.tar.gz` files directly under `<src>/<year>/tarfiles/`,
where `<src>` is the source location argument: `ls` for a local source,
`gsutil ls` for an object-store source whose URL round-trips through
`urlparse` (scheme `s3` or `gs`, no stray slashes). -/
theorem alos2_C7_listing_location (args : Args) (env : Env)
    (hdst : ∃ cs2 d, checkLoc args.dst (toString args.year) env = (cs2, Except.ok d)) :
    ((urlparse args.src).scheme ≠ "s3" →
     (urlparse args.src).scheme ≠ "gs" →
     pathJoin args.src (toString args.year ++ "/tarfiles") =
       args.src ++ "/" ++ (toString args.year ++ "/tarfiles") →
     env.dirs.contains (args.src ++ "/" ++ (toString args.year ++ "/tarfiles")) = true →
     Cmd.ls ("ls " ++ (args.src ++ "/" ++ (toString args.year ++ "/tarfiles")) ++ "/*.tar.gz")
       ∈ (main args env).cmds)
    ∧ (((urlparse args.src).scheme = "s3" ∨ (urlparse args.src).scheme = "gs") →
       (urlparse args.src).scheme ++ "://" ++ (urlparse args.src).netloc ++ "/" ++
         stripSlashes (urlparse args.src).path = args.src →
       env.callOk ("gsutil ls " ++ (args.src ++ "/" ++ (toString args.year ++ "/tarfiles"))) =
         true →
       Cmd.ls ("gsutil " ++ ("ls " ++ (args.src ++ "/" ++ (toString args.year ++ "/tarfiles")) ++
           "/*.tar.gz"))
         ∈ (main args env).cmds) := by
  obtain ⟨cs2, d, hd⟩ := hdst
  constructor
  · intro h1 h2 hjoin hdir
    have hc : checkLoc args.src (toString args.year ++ "/tarfiles") env =
        ([], Except.ok (Loc.pathLoc (args.src ++ "/" ++ (toString args.year ++ "/tarfiles")))) := by
      simp only [checkLoc]
      rw [if_neg (by simp [h1, h2])]
      rw [hjoin, if_pos hdir]
    unfold main
    rw [hc, hd]
    obtain ⟨rest, hr⟩ := build_vrt_cmds_head args.year
      (Loc.pathLoc (args.src ++ "/" ++ (toString args.year ++ "/tarfiles"))) env
    simp [hr, lsLine]
  · intro hor hrebuild hcall
    have hc : checkLoc args.src (toString args.year ++ "/tarfiles") env =
        ([Cmd.probe ("gsutil ls " ++ (args.src ++ "/" ++ (toString args.year ++ "/tarfiles")))],
         Except.ok (Loc.strLoc (args.src ++ "/" ++ (toString args.year ++ "/tarfiles")))) := by
      simp only [checkLoc]
      rw [if_pos hor, hrebuild, if_pos hcall]
    unfold main
    rw [hc, hd]
    obtain ⟨rest, hr⟩ := build_vrt_cmds_head args.year
      (Loc.strLoc (args.src ++ "/" ++ (toString args.year ++ "/tarfiles"))) env
    simp [hr, lsLine]

/-- Witness for C7: a local run with source `/data` and a remote run with
source `s3://bkt/pre`, both for year 2020 with destination `/out`. -/
theorem alos2_C7_listing_location_witness :
    Cmd.ls ("ls " ++ ("/data" ++ "/" ++ (toString (2020 : Int) ++ "/tarfiles")) ++ "/*.tar.gz")
      ∈ (main ⟨"t", 2020, "/data", "/out"⟩
          ⟨["/data/2020/tarfiles", "/out/2020"], fun _ => true, some []⟩).cmds
    ∧ Cmd.ls ("gsutil " ++ ("ls " ++ ("s3://bkt/pre" ++ "/" ++
          (toString (2020 : Int) ++ "/tarfiles")) ++ "/*.tar.gz"))
      ∈ (main ⟨"t", 2020, "s3://bkt/pre", "/out"⟩
          ⟨["/out/2020"], fun _ => true, some []⟩).cmds :=
  ⟨(alos2_C7_listing_location ⟨"t", 2020, "/data", "/out"⟩
      ⟨["/data/2020/tarfiles", "/out/2020"], fun _ => true, some []⟩
      ⟨[], Loc.pathLoc "/out/2020", rfl⟩).1
      (by decide) (by decide) (by decide) (by decide),
   (alos2_C7_listing_location ⟨"t", 2020, "s3://bkt/pre", "/out"⟩
      ⟨["/out/2020"], fun _ => true, some []⟩
      ⟨[], Loc.pathLoc "/out/2020", rfl⟩).2
      (by decide) (by decide) (by decide)⟩

/-- Witness for C10 at year 2010. -/
theorem alos2_C10_trailing_underscore_witness :
    (2010 : Int) < 2014
    ∧ (memberName 2010 "N09E109_10_MOS.tar.gz" "INC" =
        (tileOf "N09E109_10_MOS.tar.gz" ++ "_" ++ yyFor 2010 ++ "_" ++
          layer_suffix "INC" ++ "_") ++ suffixFor 2010
      ∧ suffixFor 2010 = ""
      ∧ ['_'] <:+ (memberName 2010 "N09E109_10_MOS.tar.gz" "INC").toList) :=
  ⟨by decide, alos2_C10_trailing_underscore 2010 "N09E109_10_MOS.tar.gz" "INC" (by decide)⟩

end Alos2Proc
